import Mathlib

/-!
Verification of the command-dispatch core (Directive Sequencer) and the two
concrete source files of this sample: StateSynchronizer.cpp and
AdapterUtils.cpp.

The Directive Sequencer implementation itself is not part of the source
sample (only its integration test, AlexaDirectiveSequencerLibraryTest.cpp,
is), so the sequencer is modelled from the specification text (spec.md
sections 3, 4 and 5) and the claims about it are settled against that model.
StateSynchronizer and the session retry table are embedded directly from
their source files.
-/

namespace DirectiveSequencer

/-- Modelled from the spec: BlockingPolicy, an enum {NON_BLOCKING, BLOCKING}
declared per directive type at registration time (spec section 3). -/
inductive BlockingPolicy where
  | NON_BLOCKING
  | BLOCKING
deriving DecidableEq, Repr

/-- Modelled from the spec: a Directive, an immutable value with a globally
unique message identifier, a type (namespace and name collapsed to one
string), and a turn identifier which may be empty meaning "not turn-scoped"
(spec section 3). The opaque payload and attachment are omitted: no claim
mentions them. -/
structure Directive where
  messageId : Nat
  dirType : String
  turnId : String
deriving DecidableEq, Repr

/-- A registry entry: directive type mapped to (handler reference, policy).
Handler references are identified by a number. -/
abbrev Registration := String × Nat × BlockingPolicy

/-- Modelled from the spec: registry lookup. `lookup(type) ->
Optional<(handler, policy)>`; absence signals "unhandled directive type"
(spec section 4.1). -/
def lookupHandler : List Registration → String → Option (Nat × BlockingPolicy)
  | [], _ => none
  | (t, h, p) :: rest, t2 => if t = t2 then some (h, p) else lookupHandler rest t2

/-- Remove every entry for the given directive type. -/
def removeType (t : String) : List Registration → List Registration
  | [] => []
  | r :: rest => if r.1 = t then removeType t rest else r :: removeType t rest

/-- Install one (type, policy) pair for a handler, replacing any previous
entry for that type. -/
def insertPair (t : String) (h : Nat) (p : BlockingPolicy) (reg : List Registration) :
    List Registration :=
  (t, h, p) :: removeType t reg

/-- Modelled from the spec: a requested type is already owned by a
different handler (spec section 4.1). -/
def hasConflict (reg : List Registration) (h : Nat) (decls : List (String × BlockingPolicy)) :
    Bool :=
  decls.any (fun tp => reg.any (fun r => r.1 = tp.1 && r.2.1 ≠ h))

/-- Modelled from the spec: `register(handler, {type -> policy}) -> bool`.
Rejects (returns false, no side effect) if the handler reference is
absent/null, or if any requested type is already owned by a different
handler; otherwise atomically installs all pairs (spec section 4.1).
Returns the success flag and the resulting registry. -/
def addDirectiveHandler (reg : List Registration) (handler : Option Nat)
    (decls : List (String × BlockingPolicy)) : Bool × List Registration :=
  match handler with
  | none => (false, reg)
  | some h =>
    if hasConflict reg h decls then (false, reg)
    else (true, decls.foldl (fun acc tp => insertPair tp.1 h tp.2 acc) reg)

/-- Modelled from the spec: `isCurrent(directiveTurnId) -> bool`: true if
`directiveTurnId` is empty (turn-exempt) or equals `currentTurnId`
(spec section 4.2). -/
def isCurrentTurn (currentTurnId : String) (directiveTurnId : String) : Bool :=
  directiveTurnId = "" || directiveTurnId = currentTurnId

/-- Observable actions of a run, in the order they happen: the calls made to
handlers (preparation, execution, cancellation) and the reports to the
exception collaborator. -/
inductive Action where
  | preHandle (d : Directive)
  | handle (d : Directive)
  | cancel (d : Directive)
  | exceptionReport (dirType : String) (messageId : Nat)
deriving DecidableEq, Repr

/-- The outcome a handler reports through its ResultHandle: success or
failure-with-reason (the reason carries no information the model needs). -/
inductive Outcome where
  | success
  | failure
deriving DecidableEq, Repr

/-- Inputs driving the sequencer: directive ingestion, a turn change, and a
ResultHandle report for the directive with the given message id. -/
inductive Event where
  | receive (d : Directive)
  | setTurn (id : String)
  | report (messageId : Nat) (o : Outcome)
deriving DecidableEq, Repr

/-- Modelled from the spec: the sequencer state. The handle queue holds
prepared directives together with their policy (lookup failures are resolved
before enqueue, spec section 4.4); `blocked` holds the BLOCKING directive the
Handle Pipeline is currently suspended on, if any; `trace` accumulates the
observable actions in order. -/
structure SeqState where
  registry : List Registration
  currentTurn : String
  handleQ : List (Directive × BlockingPolicy)
  blocked : Option Directive
  trace : List Action
deriving DecidableEq, Repr

/-- Modelled from the spec: the Handle Pipeline loop (spec section 4.4).
For each queued directive in arrival order: if its turn is stale, emit a
cancellation and move on; otherwise execute it; a BLOCKING directive
suspends the pipeline, a NON_BLOCKING one does not delay the next. Returns
the remaining queue, the directive suspended on (if any), and the extended
trace. -/
def pumpQ (turn : String) (q : List (Directive × BlockingPolicy)) (tr : List Action) :
    List (Directive × BlockingPolicy) × Option Directive × List Action :=
  match q with
  | [] => ([], none, tr)
  | (d, p) :: rest =>
    if isCurrentTurn turn d.turnId then
      match p with
      | BlockingPolicy.BLOCKING => (rest, some d, tr ++ [Action.handle d])
      | BlockingPolicy.NON_BLOCKING => pumpQ turn rest (tr ++ [Action.handle d])
    else
      pumpQ turn rest (tr ++ [Action.cancel d])

/-- Run the Handle Pipeline until it suspends or its queue is empty; while
the pipeline is suspended on a BLOCKING directive nothing is dispatched. -/
def pump (s : SeqState) : SeqState :=
  match s.blocked with
  | some _ => s
  | none =>
    { s with handleQ := (pumpQ s.currentTurn s.handleQ s.trace).1,
             blocked := (pumpQ s.currentTurn s.handleQ s.trace).2.1,
             trace := (pumpQ s.currentTurn s.handleQ s.trace).2.2 }

/-- A queued entry belongs to the dialog group with the given turn id: the
id is non-empty and matches the entry's turn id. Directives with an empty
turn id belong to no group (spec section 3). -/
def sameGroup (turnId : String) (dp : Directive × BlockingPolicy) : Bool :=
  if turnId = "" then false else dp.1.turnId = turnId

/-- The cancellation calls a failure report triggers: one per still-queued
directive of the failed directive's dialog group, in queue order. -/
def cancelGroup (turnId : String) (q : List (Directive × BlockingPolicy)) : List Action :=
  (q.filter (fun dp => sameGroup turnId dp)).map (fun dp => Action.cancel dp.1)

/-- The queue after a failure report: the failed directive's dialog group
removed, everything else kept in order. -/
def dropGroup (turnId : String) (q : List (Directive × BlockingPolicy)) :
    List (Directive × BlockingPolicy) :=
  q.filter (fun dp => !(sameGroup turnId dp))

/-- One input event processed to quiescence. Receiving a directive performs
the registry lookup (spec section 4.3): if absent, exactly one exception
report is emitted and the directive is dropped; otherwise the directive is
prepared and enqueued. A turn change (spec sections 4.2 and 4.4) replaces
the current turn and ends the suspension when the turn changed away from
the suspended directive's turn. A report naming the suspended directive
ends the suspension; on success dispatch simply resumes; on failure the
still-queued directives of the failed directive's dialog group are each
canceled, in order, and removed before dispatch resumes — this follows the
integration test cancelDirectivesWhileInQueue
(AlexaDirectiveSequencerLibraryTest.cpp lines 698 to 732), where after
setFailed on the BLOCKING directive the remaining directives of the group
are canceled and nothing further of the group is handled; the spec's claim
(section 7) that failure is treated identically to success for progression
contradicts that test. Any other report is a no-op. -/
def stepEvent (s : SeqState) (e : Event) : SeqState :=
  match e with
  | Event.receive d =>
    match lookupHandler s.registry d.dirType with
    | none => { s with trace := s.trace ++ [Action.exceptionReport d.dirType d.messageId] }
    | some hp =>
      pump { s with
              trace := s.trace ++ [Action.preHandle d],
              handleQ := s.handleQ ++ [(d, hp.2)] }
  | Event.setTurn id =>
    match s.blocked with
    | some d =>
      if isCurrentTurn id d.turnId then { s with currentTurn := id }
      else pump { s with currentTurn := id, blocked := none }
    | none => pump { s with currentTurn := id }
  | Event.report mid o =>
    match s.blocked with
    | some d =>
      if d.messageId = mid then
        match o with
        | Outcome.success => pump { s with blocked := none }
        | Outcome.failure =>
          pump { s with
                  blocked := none,
                  handleQ := dropGroup d.turnId s.handleQ,
                  trace := s.trace ++ cancelGroup d.turnId s.handleQ }
      else s
    | none => s

/-- The state before any event: no active turn yet (empty id), empty
pipelines, empty trace. -/
def initialState (reg : List Registration) : SeqState :=
  { registry := reg, currentTurn := "", handleQ := [], blocked := none, trace := [] }

/-- Process a list of input events in order. -/
def run (s : SeqState) (es : List Event) : SeqState :=
  es.foldl stepEvent s

/-- Number of preparation calls for a directive type in a trace. -/
def preCount (t : String) (tr : List Action) : Nat :=
  tr.countP (fun a => match a with | Action.preHandle d => d.dirType = t | _ => false)

/-- Number of execution calls for a directive type in a trace. -/
def handleCount (t : String) (tr : List Action) : Nat :=
  tr.countP (fun a => match a with | Action.handle d => d.dirType = t | _ => false)

/-- Number of cancellation calls for a directive type in a trace. -/
def cancelCount (t : String) (tr : List Action) : Nat :=
  tr.countP (fun a => match a with | Action.cancel d => d.dirType = t | _ => false)

/-- Number of queued directives of a directive type. -/
def queueCount (t : String) (q : List (Directive × BlockingPolicy)) : Nat :=
  q.countP (fun dp => dp.1.dirType = t)

/-- The execution calls of a trace, in order. -/
def handleActions (tr : List Action) : List Action :=
  tr.filter (fun a => match a with | Action.handle _ => true | _ => false)

/-- The accounting invariant of a state: every prepared directive is either
already executed, already canceled, or still queued, counted per type. -/
def CountInv (s : SeqState) : Prop :=
  ∀ t, preCount t s.trace = handleCount t s.trace + cancelCount t s.trace
        + queueCount t s.handleQ

end DirectiveSequencer

namespace DirectiveSequencer

theorem pumpQ_nil (turn : String) (tr : List Action) :
    pumpQ turn [] tr = ([], none, tr) := rfl

theorem pumpQ_cons_stale {turn : String} {d : Directive} (p : BlockingPolicy)
    (rest : List (Directive × BlockingPolicy)) (tr : List Action)
    (h : isCurrentTurn turn d.turnId = false) :
    pumpQ turn ((d, p) :: rest) tr = pumpQ turn rest (tr ++ [Action.cancel d]) := by
  simp [pumpQ, h]

theorem pumpQ_cons_nonblocking {turn : String} {d : Directive}
    (rest : List (Directive × BlockingPolicy)) (tr : List Action)
    (h : isCurrentTurn turn d.turnId = true) :
    pumpQ turn ((d, BlockingPolicy.NON_BLOCKING) :: rest) tr
      = pumpQ turn rest (tr ++ [Action.handle d]) := by
  simp [pumpQ, h]

theorem pumpQ_cons_blocking {turn : String} {d : Directive}
    (rest : List (Directive × BlockingPolicy)) (tr : List Action)
    (h : isCurrentTurn turn d.turnId = true) :
    pumpQ turn ((d, BlockingPolicy.BLOCKING) :: rest) tr
      = (rest, some d, tr ++ [Action.handle d]) := by
  simp [pumpQ, h]

theorem pumpQ_all_stale {turn : String} {q : List (Directive × BlockingPolicy)}
    (tr : List Action) (h : ∀ dp ∈ q, isCurrentTurn turn dp.1.turnId = false) :
    pumpQ turn q tr = ([], none, tr ++ q.map (fun dp => Action.cancel dp.1)) := by
  induction q generalizing tr with
  | nil => simp [pumpQ_nil]
  | cons dp rest ih =>
    obtain ⟨d, p⟩ := dp
    rw [pumpQ_cons_stale p rest tr (h (d, p) (List.mem_cons_self _ _))]
    rw [ih (tr ++ [Action.cancel d]) (fun x hx => h x (List.mem_cons_of_mem _ hx))]
    simp

theorem preCount_append (t : String) (l1 l2 : List Action) :
    preCount t (l1 ++ l2) = preCount t l1 + preCount t l2 :=
  List.countP_append _ _ _

theorem handleCount_append (t : String) (l1 l2 : List Action) :
    handleCount t (l1 ++ l2) = handleCount t l1 + handleCount t l2 :=
  List.countP_append _ _ _

theorem cancelCount_append (t : String) (l1 l2 : List Action) :
    cancelCount t (l1 ++ l2) = cancelCount t l1 + cancelCount t l2 :=
  List.countP_append _ _ _

theorem preCount_one_handle (t : String) (d : Directive) :
    preCount t [Action.handle d] = 0 := rfl

theorem preCount_one_cancel (t : String) (d : Directive) :
    preCount t [Action.cancel d] = 0 := rfl

theorem preCount_one_exception (t : String) (ty : String) (mid : Nat) :
    preCount t [Action.exceptionReport ty mid] = 0 := rfl

theorem handleCount_one_pre (t : String) (d : Directive) :
    handleCount t [Action.preHandle d] = 0 := rfl

theorem handleCount_one_cancel (t : String) (d : Directive) :
    handleCount t [Action.cancel d] = 0 := rfl

theorem handleCount_one_exception (t : String) (ty : String) (mid : Nat) :
    handleCount t [Action.exceptionReport ty mid] = 0 := rfl

theorem cancelCount_one_pre (t : String) (d : Directive) :
    cancelCount t [Action.preHandle d] = 0 := rfl

theorem cancelCount_one_handle (t : String) (d : Directive) :
    cancelCount t [Action.handle d] = 0 := rfl

theorem cancelCount_one_exception (t : String) (ty : String) (mid : Nat) :
    cancelCount t [Action.exceptionReport ty mid] = 0 := rfl

theorem preCount_one_pre (t : String) (d : Directive) :
    preCount t [Action.preHandle d] = if d.dirType = t then 1 else 0 := by
  simp [preCount, List.countP_cons]

theorem handleCount_one_handle (t : String) (d : Directive) :
    handleCount t [Action.handle d] = if d.dirType = t then 1 else 0 := by
  simp [handleCount, List.countP_cons]

theorem cancelCount_one_cancel (t : String) (d : Directive) :
    cancelCount t [Action.cancel d] = if d.dirType = t then 1 else 0 := by
  simp [cancelCount, List.countP_cons]

theorem queueCount_cons (t : String) (d : Directive) (p : BlockingPolicy)
    (q : List (Directive × BlockingPolicy)) :
    queueCount t ((d, p) :: q) = queueCount t q + (if d.dirType = t then 1 else 0) := by
  simp [queueCount, List.countP_cons]

theorem queueCount_nil (t : String) : queueCount t [] = 0 := rfl

theorem queueCount_append (t : String) (q1 q2 : List (Directive × BlockingPolicy)) :
    queueCount t (q1 ++ q2) = queueCount t q1 + queueCount t q2 :=
  List.countP_append _ _ _

theorem preCount_cons_cancel (t : String) (d : Directive) (l : List Action) :
    preCount t (Action.cancel d :: l) = preCount t l := by
  simp [preCount, List.countP_cons]

theorem handleCount_cons_cancel (t : String) (d : Directive) (l : List Action) :
    handleCount t (Action.cancel d :: l) = handleCount t l := by
  simp [handleCount, List.countP_cons]

theorem cancelCount_cons_cancel (t : String) (d : Directive) (l : List Action) :
    cancelCount t (Action.cancel d :: l)
      = cancelCount t l + (if d.dirType = t then 1 else 0) := by
  simp [cancelCount, List.countP_cons]

theorem cancelGroup_cons_mem {g : String} {dp : Directive × BlockingPolicy}
    (rest : List (Directive × BlockingPolicy)) (hs : sameGroup g dp = true) :
    cancelGroup g (dp :: rest) = Action.cancel dp.1 :: cancelGroup g rest := by
  simp [cancelGroup, List.filter_cons, hs]

theorem cancelGroup_cons_notmem {g : String} {dp : Directive × BlockingPolicy}
    (rest : List (Directive × BlockingPolicy)) (hs : sameGroup g dp = false) :
    cancelGroup g (dp :: rest) = cancelGroup g rest := by
  simp [cancelGroup, List.filter_cons, hs]

theorem dropGroup_cons_mem {g : String} {dp : Directive × BlockingPolicy}
    (rest : List (Directive × BlockingPolicy)) (hs : sameGroup g dp = true) :
    dropGroup g (dp :: rest) = dropGroup g rest := by
  simp [dropGroup, List.filter_cons, hs]

theorem dropGroup_cons_notmem {g : String} {dp : Directive × BlockingPolicy}
    (rest : List (Directive × BlockingPolicy)) (hs : sameGroup g dp = false) :
    dropGroup g (dp :: rest) = dp :: dropGroup g rest := by
  simp [dropGroup, List.filter_cons, hs]

theorem group_counts (g t : String) (q : List (Directive × BlockingPolicy)) :
    queueCount t (dropGroup g q) + cancelCount t (cancelGroup g q) = queueCount t q := by
  induction q with
  | nil => rfl
  | cons dp rest ih =>
    obtain ⟨d0, p0⟩ := dp
    by_cases hs : sameGroup g (d0, p0) = true
    · rw [dropGroup_cons_mem rest hs, cancelGroup_cons_mem rest hs,
        cancelCount_cons_cancel, queueCount_cons]
      dsimp only
      omega
    · have hs2 : sameGroup g (d0, p0) = false := by simpa using hs
      rw [dropGroup_cons_notmem rest hs2, cancelGroup_cons_notmem rest hs2,
        queueCount_cons, queueCount_cons]
      omega

theorem preCount_cancelGroup (t g : String) (q : List (Directive × BlockingPolicy)) :
    preCount t (cancelGroup g q) = 0 := by
  induction q with
  | nil => rfl
  | cons dp rest ih =>
    by_cases hs : sameGroup g dp = true
    · rw [cancelGroup_cons_mem rest hs, preCount_cons_cancel]
      exact ih
    · rw [cancelGroup_cons_notmem rest (by simpa using hs)]
      exact ih

theorem handleCount_cancelGroup (t g : String) (q : List (Directive × BlockingPolicy)) :
    handleCount t (cancelGroup g q) = 0 := by
  induction q with
  | nil => rfl
  | cons dp rest ih =>
    by_cases hs : sameGroup g dp = true
    · rw [cancelGroup_cons_mem rest hs, handleCount_cons_cancel]
      exact ih
    · rw [cancelGroup_cons_notmem rest (by simpa using hs)]
      exact ih

theorem cancelGroup_mem_turnId {g : String} {q : List (Directive × BlockingPolicy)}
    {d : Directive} (h : Action.cancel d ∈ cancelGroup g q) : d.turnId ≠ "" := by
  unfold cancelGroup at h
  rcases List.mem_map.mp h with ⟨dp, hdp, heq⟩
  have hd : dp.1 = d := by
    simpa using heq
  have hf := (List.mem_filter.mp hdp).2
  unfold sameGroup at hf
  by_cases hg : g = ""
  · rw [if_pos hg] at hf
    exact absurd hf (by simp)
  · rw [if_neg hg] at hf
    have ht : dp.1.turnId = g := by simpa using hf
    rw [← hd, ht]
    exact hg

theorem pumpQ_counts (turn : String) (q : List (Directive × BlockingPolicy))
    (tr : List Action) (t : String) :
    preCount t (pumpQ turn q tr).2.2 = preCount t tr ∧
    handleCount t (pumpQ turn q tr).2.2 + cancelCount t (pumpQ turn q tr).2.2
        + queueCount t (pumpQ turn q tr).1
      = handleCount t tr + cancelCount t tr + queueCount t q := by
  induction q generalizing tr with
  | nil => simp [pumpQ_nil, queueCount]
  | cons dp rest ih =>
    obtain ⟨d, p⟩ := dp
    by_cases hc : isCurrentTurn turn d.turnId = true
    · cases p with
      | NON_BLOCKING =>
        rw [pumpQ_cons_nonblocking rest tr hc]
        obtain ⟨ih1, ih2⟩ := ih (tr ++ [Action.handle d])
        constructor
        · rw [ih1, preCount_append, preCount_one_handle]
          omega
        · rw [ih2, handleCount_append, handleCount_one_handle, cancelCount_append,
            cancelCount_one_handle, queueCount_cons]
          omega
      | BLOCKING =>
        rw [pumpQ_cons_blocking rest tr hc]
        dsimp only
        constructor
        · rw [preCount_append, preCount_one_handle]
          omega
        · rw [handleCount_append, handleCount_one_handle, cancelCount_append,
            cancelCount_one_handle, queueCount_cons]
          omega
    · rw [pumpQ_cons_stale p rest tr (by simpa using hc)]
      obtain ⟨ih1, ih2⟩ := ih (tr ++ [Action.cancel d])
      constructor
      · rw [ih1, preCount_append, preCount_one_cancel]
        omega
      · rw [ih2, handleCount_append, handleCount_one_cancel, cancelCount_append,
          cancelCount_one_cancel, queueCount_cons]
        omega

theorem CountInv_pump {s : SeqState} (h : CountInv s) : CountInv (pump s) := by
  unfold pump
  cases hb : s.blocked with
  | some d => exact h
  | none =>
    intro t
    obtain ⟨h1, h2⟩ := pumpQ_counts s.currentTurn s.handleQ s.trace t
    show preCount t (pumpQ s.currentTurn s.handleQ s.trace).2.2
        = handleCount t (pumpQ s.currentTurn s.handleQ s.trace).2.2
          + cancelCount t (pumpQ s.currentTurn s.handleQ s.trace).2.2
          + queueCount t (pumpQ s.currentTurn s.handleQ s.trace).1
    rw [h1, h2]
    exact h t

theorem CountInv_step (s : SeqState) (e : Event) (h : CountInv s) :
    CountInv (stepEvent s e) := by
  cases e with
  | receive d =>
    simp only [stepEvent]
    cases hl : lookupHandler s.registry d.dirType with
    | none =>
      intro t
      show preCount t (s.trace ++ [Action.exceptionReport d.dirType d.messageId])
          = handleCount t (s.trace ++ [Action.exceptionReport d.dirType d.messageId])
            + cancelCount t (s.trace ++ [Action.exceptionReport d.dirType d.messageId])
            + queueCount t s.handleQ
      rw [preCount_append, handleCount_append, cancelCount_append,
        preCount_one_exception, handleCount_one_exception, cancelCount_one_exception]
      have := h t
      omega
    | some hp =>
      apply CountInv_pump
      intro t
      show preCount t (s.trace ++ [Action.preHandle d])
          = handleCount t (s.trace ++ [Action.preHandle d])
            + cancelCount t (s.trace ++ [Action.preHandle d])
            + queueCount t (s.handleQ ++ [(d, hp.2)])
      rw [preCount_append, handleCount_append, cancelCount_append,
        preCount_one_pre, handleCount_one_pre, cancelCount_one_pre,
        queueCount_append, queueCount_cons, queueCount_nil]
      have := h t
      omega
  | setTurn id =>
    simp only [stepEvent]
    cases hb : s.blocked with
    | some d =>
      dsimp only
      by_cases hc : isCurrentTurn id d.turnId = true
      · rw [if_pos hc]
        exact h
      · rw [if_neg hc]
        apply CountInv_pump
        exact h
    | none =>
      apply CountInv_pump
      exact h
  | report mid o =>
    simp only [stepEvent]
    cases hb : s.blocked with
    | some d =>
      dsimp only
      by_cases hm : d.messageId = mid
      · rw [if_pos hm]
        cases o with
        | success =>
          apply CountInv_pump
          exact h
        | failure =>
          apply CountInv_pump
          intro t
          show preCount t (s.trace ++ cancelGroup d.turnId s.handleQ)
              = handleCount t (s.trace ++ cancelGroup d.turnId s.handleQ)
                + cancelCount t (s.trace ++ cancelGroup d.turnId s.handleQ)
                + queueCount t (dropGroup d.turnId s.handleQ)
          rw [preCount_append, handleCount_append, cancelCount_append,
            preCount_cancelGroup, handleCount_cancelGroup]
          have h1 := h t
          have h2 := group_counts d.turnId t s.handleQ
          omega
      · rw [if_neg hm]
        exact h
    | none => exact h

theorem CountInv_run (s : SeqState) (es : List Event) (h : CountInv s) :
    CountInv (run s es) := by
  induction es generalizing s with
  | nil => exact h
  | cons e rest ih => exact ih (stepEvent s e) (CountInv_step s e h)

theorem CountInv_initial (reg : List Registration) : CountInv (initialState reg) := by
  intro t
  rfl

theorem pump_blocked {s : SeqState} {d : Directive} (h : s.blocked = some d) :
    pump s = s := by
  unfold pump
  rw [h]

theorem pump_unblocked {s : SeqState} (h : s.blocked = none) :
    pump s = { s with handleQ := (pumpQ s.currentTurn s.handleQ s.trace).1,
                      blocked := (pumpQ s.currentTurn s.handleQ s.trace).2.1,
                      trace := (pumpQ s.currentTurn s.handleQ s.trace).2.2 } := by
  unfold pump
  rw [h]

theorem pumpQ_cancel_mem {turn : String} {q : List (Directive × BlockingPolicy)}
    {tr : List Action} {d : Directive}
    (h : Action.cancel d ∈ (pumpQ turn q tr).2.2) :
    Action.cancel d ∈ tr ∨ d.turnId ≠ "" := by
  induction q generalizing tr with
  | nil => exact Or.inl (by simpa [pumpQ_nil] using h)
  | cons dp rest ih =>
    obtain ⟨d0, p⟩ := dp
    by_cases hc : isCurrentTurn turn d0.turnId = true
    · cases p with
      | NON_BLOCKING =>
        rw [pumpQ_cons_nonblocking rest tr hc] at h
        rcases ih h with hm | hne
        · rcases List.mem_append.mp hm with hm2 | hm2
          · exact Or.inl hm2
          · simp at hm2
        · exact Or.inr hne
      | BLOCKING =>
        rw [pumpQ_cons_blocking rest tr hc] at h
        rcases List.mem_append.mp h with hm2 | hm2
        · exact Or.inl hm2
        · simp at hm2
    · have hfalse : isCurrentTurn turn d0.turnId = false := by simpa using hc
      rw [pumpQ_cons_stale p rest tr hfalse] at h
      rcases ih h with hm | hne
      · rcases List.mem_append.mp hm with hm2 | hm2
        · exact Or.inl hm2
        · have hd : d = d0 := by simpa using hm2
          subst hd
          simp only [isCurrentTurn, Bool.or_eq_false_iff, decide_eq_false_iff_not] at hfalse
          exact Or.inr hfalse.1
      · exact Or.inr hne

theorem pump_cancel_mem {s : SeqState} {d : Directive}
    (h : Action.cancel d ∈ (pump s).trace) :
    Action.cancel d ∈ s.trace ∨ d.turnId ≠ "" := by
  unfold pump at h
  cases hb : s.blocked with
  | some d0 => rw [hb] at h; exact Or.inl h
  | none => rw [hb] at h; exact pumpQ_cancel_mem h

theorem stepEvent_cancel_mem {s : SeqState} {e : Event} {d : Directive}
    (h : Action.cancel d ∈ (stepEvent s e).trace) :
    Action.cancel d ∈ s.trace ∨ d.turnId ≠ "" := by
  cases e with
  | receive d1 =>
    simp only [stepEvent] at h
    cases hl : lookupHandler s.registry d1.dirType with
    | none =>
      rw [hl] at h
      rcases List.mem_append.mp h with hm | hm
      · exact Or.inl hm
      · simp at hm
    | some hp =>
      rw [hl] at h
      rcases pump_cancel_mem h with hm | hne
      · rcases List.mem_append.mp hm with hm2 | hm2
        · exact Or.inl hm2
        · simp at hm2
      · exact Or.inr hne
  | setTurn id =>
    simp only [stepEvent] at h
    cases hb : s.blocked with
    | some d0 =>
      rw [hb] at h
      dsimp only at h
      by_cases hc : isCurrentTurn id d0.turnId = true
      · rw [if_pos hc] at h
        exact Or.inl h
      · rw [if_neg hc] at h
        rcases pump_cancel_mem h with hm | hne
        · exact Or.inl hm
        · exact Or.inr hne
    | none =>
      rw [hb] at h
      dsimp only at h
      rcases pump_cancel_mem h with hm | hne
      · exact Or.inl hm
      · exact Or.inr hne
  | report mid o =>
    simp only [stepEvent] at h
    cases hb : s.blocked with
    | some d0 =>
      rw [hb] at h
      dsimp only at h
      by_cases hm : d0.messageId = mid
      · rw [if_pos hm] at h
        cases o with
        | success =>
          rcases pump_cancel_mem h with hm2 | hne
          · exact Or.inl hm2
          · exact Or.inr hne
        | failure =>
          rcases pump_cancel_mem h with hm2 | hne
          · rcases List.mem_append.mp hm2 with hm3 | hm3
            · exact Or.inl hm3
            · exact Or.inr (cancelGroup_mem_turnId hm3)
          · exact Or.inr hne
      · rw [if_neg hm] at h
        exact Or.inl h
    | none =>
      rw [hb] at h
      dsimp only at h
      exact Or.inl h

theorem run_cancel_mem {s : SeqState} {es : List Event} {d : Directive}
    (h : Action.cancel d ∈ (run s es).trace) :
    Action.cancel d ∈ s.trace ∨ d.turnId ≠ "" := by
  induction es generalizing s with
  | nil => exact Or.inl h
  | cons e rest ih =>
    rcases ih (s := stepEvent s e) h with hm | hne
    · exact stepEvent_cancel_mem hm
    · exact Or.inr hne

theorem lookupHandler_insertPair_self (t : String) (h : Nat) (p : BlockingPolicy)
    (reg : List Registration) :
    lookupHandler (insertPair t h p reg) t = some (h, p) := by
  simp [insertPair, lookupHandler]

theorem lookupHandler_removeType_ne {t t2 : String} (reg : List Registration)
    (hne : t2 ≠ t) :
    lookupHandler (removeType t reg) t2 = lookupHandler reg t2 := by
  induction reg with
  | nil => rfl
  | cons r rest ih =>
    obtain ⟨a, b, c⟩ := r
    have hts : ¬ (t = t2) := fun hh => hne hh.symm
    by_cases ha : a = t
    · have hat : ¬ (a = t2) := fun hh => hne (hh ▸ ha)
      simp [removeType, ha, lookupHandler, hat, hts, ih]
    · by_cases hat : a = t2
      · simp [removeType, ha, lookupHandler, hat, hne, hts]
      · simp [removeType, ha, lookupHandler, hat, hts, ih]

theorem lookupHandler_insertPair_ne {t t2 : String} (h : Nat) (p : BlockingPolicy)
    (reg : List Registration) (hne : t2 ≠ t) :
    lookupHandler (insertPair t h p reg) t2 = lookupHandler reg t2 := by
  have hts : ¬ (t = t2) := fun hh => hne (hh ▸ rfl)
  simp only [insertPair, lookupHandler, hts, if_false]
  exact lookupHandler_removeType_ne reg hne

theorem lookupHandler_foldl_notmem {h : Nat} {ds : List (String × BlockingPolicy)}
    {t : String} (reg : List Registration) (hnot : t ∉ ds.map Prod.fst) :
    lookupHandler (ds.foldl (fun acc tp => insertPair tp.1 h tp.2 acc) reg) t
      = lookupHandler reg t := by
  induction ds generalizing reg with
  | nil => rfl
  | cons tp rest ih =>
    simp only [List.map_cons, List.mem_cons] at hnot
    push_neg at hnot
    simp only [List.foldl_cons]
    rw [ih (insertPair tp.1 h tp.2 reg) hnot.2]
    exact lookupHandler_insertPair_ne h tp.2 reg hnot.1

theorem lookupHandler_foldl_mem {h : Nat} {ds : List (String × BlockingPolicy)}
    (reg : List Registration) (hnd : (ds.map Prod.fst).Nodup)
    {tp : String × BlockingPolicy} (hmem : tp ∈ ds) :
    lookupHandler (ds.foldl (fun acc tp2 => insertPair tp2.1 h tp2.2 acc) reg) tp.1
      = some (h, tp.2) := by
  induction ds generalizing reg with
  | nil => simp at hmem
  | cons tp0 rest ih =>
    simp only [List.map_cons, List.nodup_cons] at hnd
    simp only [List.foldl_cons]
    rcases List.mem_cons.mp hmem with heq | hmem2
    · subst heq
      rw [lookupHandler_foldl_notmem (insertPair tp.1 h tp.2 reg) hnd.1]
      exact lookupHandler_insertPair_self tp.1 h tp.2 reg
    · exact ih (insertPair tp0.1 h tp0.2 reg) hnd.2 hmem2

end DirectiveSequencer

namespace StateSync

/-- The synchronization state of StateSynchronizer
(ObserverInterface::State in the source). -/
inductive State where
  | NOT_SYNCHRONIZED
  | SYNCHRONIZED
deriving DecidableEq, Repr

/-- The StateSynchronizer object: the two collaborator references stored by
the constructor (StateSynchronizer.cpp lines 151-158), the synchronization
state, and the observer set. Collaborators and observers are identified by
numbers; nullable pointers are Option. -/
structure StateSynchronizer where
  m_contextManager : Nat
  m_messageSender : Nat
  m_state : State
  m_observers : List Nat
deriving DecidableEq, Repr

/-- StateSynchronizer::create (StateSynchronizer.cpp lines 47-59): returns
null if contextManager is null, returns null if messageSender is null,
otherwise constructs the instance; the constructor (lines 151-158)
initializes m_state to NOT_SYNCHRONIZED and the observer set empty. -/
def create (contextManager : Option Nat) (messageSender : Option Nat) :
    Option StateSynchronizer :=
  match contextManager with
  | none => none
  | some cm =>
    match messageSender with
    | none => none
    | some ms =>
      some { m_contextManager := cm, m_messageSender := ms,
             m_state := State.NOT_SYNCHRONIZED, m_observers := [] }

/-- The lock-relevant steps of StateSynchronizer notification code
(StateSynchronizer.cpp): operations on m_stateMutex and m_observerMutex,
the copy of the observer set, and observer callbacks. -/
inductive NotifyStep where
  | acquireStateMutex
  | releaseStateMutex
  | acquireObserverMutex
  | copyObservers (snapshot : List Nat)
  | releaseObserverMutex
  | invokeCallback (observer : Nat)
deriving DecidableEq, Repr

/-- StateSynchronizer::notifyObserversLocked (StateSynchronizer.cpp lines
89-96) as its sequence of lock-relevant steps: `std::unique_lock observerLock
(m_observerMutex)` acquires; `auto currentObservers = m_observers` copies;
`observerLock.unlock()` releases; the for loop invokes `onStateChanged` on
each element of the copy. -/
def notifyObserversLockedSteps (m_observers : List Nat) : List NotifyStep :=
  [NotifyStep.acquireObserverMutex,
   NotifyStep.copyObservers m_observers,
   NotifyStep.releaseObserverMutex]
  ++ m_observers.map NotifyStep.invokeCallback

/-- A full notification round as both callers perform it: messageSent
(StateSynchronizer.cpp line 100) and onConnectionStatusChanged (line 115)
hold a lock_guard on m_stateMutex and call notifyObserversLocked (lines 103
and 129) before the guard releases at scope exit, so the state mutex is
held across the whole body of notifyObserversLocked, callbacks included —
which is what the Locked suffix records. -/
def notificationRoundSteps (m_observers : List Nat) : List NotifyStep :=
  [NotifyStep.acquireStateMutex]
  ++ notifyObserversLockedSteps m_observers
  ++ [NotifyStep.releaseStateMutex]

/-- The lock-relevant steps of StateSynchronizer::addObserver
(StateSynchronizer.cpp lines 61-73): acquire the observer mutex; when the
observer is newly inserted, also acquire the state mutex (line 68) and
invoke the new observer's callback under both locks (line 69). -/
def addObserverSteps (observer : Nat) (alreadyAdded : Bool) : List NotifyStep :=
  if alreadyAdded then
    [NotifyStep.acquireObserverMutex, NotifyStep.releaseObserverMutex]
  else
    [NotifyStep.acquireObserverMutex, NotifyStep.acquireStateMutex,
     NotifyStep.invokeCallback observer,
     NotifyStep.releaseStateMutex, NotifyStep.releaseObserverMutex]

/-- A notification round over the observer set [1] whose single callback
re-enters the component through addObserver(2): the re-entrant addObserver
steps run inside the callback, before the round finishes. -/
def roundWhereCallbackAddsObserver : List NotifyStep :=
  [NotifyStep.acquireStateMutex,
   NotifyStep.acquireObserverMutex,
   NotifyStep.copyObservers [1],
   NotifyStep.releaseObserverMutex,
   NotifyStep.invokeCallback 1]
  ++ addObserverSteps 2 false
  ++ [NotifyStep.releaseStateMutex]

/-- Audit state for a single thread walking a step list: the depth of each
mutex, and flags recording whether every callback so far ran with the
observer mutex free, whether the state mutex was held at every callback so
far, whether every copy ran under the observer mutex, and whether no
acquire so far re-acquired a mutex the thread already held — a same-thread
re-acquire of a non-recursive std::mutex is a deadlock. -/
structure LockState where
  stateDepth : Int
  observerDepth : Int
  observerFreeAtCallbacks : Bool
  stateHeldAtCallbacks : Bool
  copiesUnderObserverMutex : Bool
  noSameThreadReacquire : Bool
deriving DecidableEq, Repr

/-- Walk a step list updating the mutex depths and the audit flags. -/
def lockAuditGo : LockState → List NotifyStep → LockState
  | a, [] => a
  | a, NotifyStep.acquireStateMutex :: rest =>
      lockAuditGo { a with
        stateDepth := a.stateDepth + 1,
        noSameThreadReacquire := a.noSameThreadReacquire && decide (a.stateDepth = 0) } rest
  | a, NotifyStep.releaseStateMutex :: rest =>
      lockAuditGo { a with stateDepth := a.stateDepth - 1 } rest
  | a, NotifyStep.acquireObserverMutex :: rest =>
      lockAuditGo { a with
        observerDepth := a.observerDepth + 1,
        noSameThreadReacquire := a.noSameThreadReacquire && decide (a.observerDepth = 0) } rest
  | a, NotifyStep.releaseObserverMutex :: rest =>
      lockAuditGo { a with observerDepth := a.observerDepth - 1 } rest
  | a, NotifyStep.copyObservers _ :: rest =>
      lockAuditGo { a with
        copiesUnderObserverMutex :=
          a.copiesUnderObserverMutex && decide (0 < a.observerDepth) } rest
  | a, NotifyStep.invokeCallback _ :: rest =>
      lockAuditGo { a with
        observerFreeAtCallbacks :=
          a.observerFreeAtCallbacks && decide (a.observerDepth = 0),
        stateHeldAtCallbacks :=
          a.stateHeldAtCallbacks && decide (0 < a.stateDepth) } rest

/-- The audit start: both mutexes free, all flags vacuously true. -/
def initialLockState : LockState :=
  { stateDepth := 0, observerDepth := 0, observerFreeAtCallbacks := true,
    stateHeldAtCallbacks := true, copiesUnderObserverMutex := true,
    noSameThreadReacquire := true }

/-- Audit of a step list starting with both mutexes free. -/
def lockAudit (steps : List NotifyStep) : LockState :=
  lockAuditGo initialLockState steps

/-- notifyObserversLocked with re-entrant callbacks made explicit: each
callback may mutate the live observer set (as addObserver and removeObserver
do when called back into the component), but the iteration runs over the
snapshot `currentObservers` taken before the unlock. Returns the final live
observer set and the list of observers actually invoked, in order. -/
def notifyRun (m_observers : List Nat) (reenter : Nat → List Nat → List Nat) :
    List Nat × List Nat :=
  let currentObservers := m_observers
  (currentObservers.foldl (fun live o => reenter o live) m_observers, currentObservers)

end StateSync

namespace AdapterUtils

/-- SESSION_RETRY_TABLE (AdapterUtils.cpp lines 33-40): the session retry
back-off intervals in milliseconds, written exactly as in the source. -/
def SESSION_RETRY_TABLE : List Int :=
  [1000 * 60,
   5000 * 60,
   15000 * 60,
   20000 * 60,
   30000 * 60,
   60000 * 60]

end AdapterUtils

namespace DirectiveSequencer

/-- C1 counterexample: the claim asserts a failure report is treated like a
success report for progression, with the queued same-turn directives going
on to be handled; but at a state suspended on a BLOCKING Speak of turn T1
with a SetMute of T1 still queued, the failure report and the success
report produce different successor states, and after the failure the
queued SetMute is canceled, not handled — matching the integration test
cancelDirectivesWhileInQueue, where after setFailed only cancels (and no
further handling) of the group are accepted. -/
theorem claim1_counterexample :
    stepEvent { registry := [("Speak", 1, BlockingPolicy.BLOCKING),
                             ("SetMute", 1, BlockingPolicy.NON_BLOCKING)],
                currentTurn := "T1",
                handleQ := [(⟨2, "SetMute", "T1"⟩, BlockingPolicy.NON_BLOCKING)],
                blocked := some ⟨1, "Speak", "T1"⟩, trace := [] }
        (Event.report 1 Outcome.failure)
      ≠ stepEvent { registry := [("Speak", 1, BlockingPolicy.BLOCKING),
                                 ("SetMute", 1, BlockingPolicy.NON_BLOCKING)],
                    currentTurn := "T1",
                    handleQ := [(⟨2, "SetMute", "T1"⟩, BlockingPolicy.NON_BLOCKING)],
                    blocked := some ⟨1, "Speak", "T1"⟩, trace := [] }
          (Event.report 1 Outcome.success)
    ∧ Action.handle ⟨2, "SetMute", "T1"⟩
        ∉ (stepEvent { registry := [("Speak", 1, BlockingPolicy.BLOCKING),
                                    ("SetMute", 1, BlockingPolicy.NON_BLOCKING)],
                       currentTurn := "T1",
                       handleQ := [(⟨2, "SetMute", "T1"⟩, BlockingPolicy.NON_BLOCKING)],
                       blocked := some ⟨1, "Speak", "T1"⟩, trace := [] }
            (Event.report 1 Outcome.failure)).trace
    ∧ Action.cancel ⟨2, "SetMute", "T1"⟩
        ∈ (stepEvent { registry := [("Speak", 1, BlockingPolicy.BLOCKING),
                                    ("SetMute", 1, BlockingPolicy.NON_BLOCKING)],
                       currentTurn := "T1",
                       handleQ := [(⟨2, "SetMute", "T1"⟩, BlockingPolicy.NON_BLOCKING)],
                       blocked := some ⟨1, "Speak", "T1"⟩, trace := [] }
            (Event.report 1 Outcome.failure)).trace := by
  decide

/-- C1 as amended: a report naming the suspended BLOCKING directive ends
the suspension whatever its outcome, but the outcomes differ for the rest
of the group: after a success report dispatch simply resumes, while after a
failure report every still-queued directive of the failed directive's
dialog group is canceled, in queue order, and removed before dispatch
resumes; directives outside that group are unaffected, and the failure is
terminal at directive granularity (the sequencer itself continues). -/
theorem claim1_failure_drops_group (s : SeqState) (d : Directive)
    (hb : s.blocked = some d) :
    stepEvent s (Event.report d.messageId Outcome.failure)
      = pump { s with
                blocked := none,
                handleQ := dropGroup d.turnId s.handleQ,
                trace := s.trace ++ cancelGroup d.turnId s.handleQ }
    ∧ stepEvent s (Event.report d.messageId Outcome.success)
      = pump { s with blocked := none } := by
  constructor
  · simp only [stepEvent]
    rw [hb]
    dsimp only
    rw [if_pos rfl]
  · simp only [stepEvent]
    rw [hb]
    dsimp only
    rw [if_pos rfl]

/-- Witness for C1: at a state suspended on a BLOCKING Speak of turn T1
with a SetMute of T1 queued, the failure report cancels and removes the
queued group member and the success report resumes dispatch unchanged. -/
theorem claim1_witness :
    stepEvent { registry := [("Speak", 1, BlockingPolicy.BLOCKING),
                             ("SetMute", 1, BlockingPolicy.NON_BLOCKING)],
                currentTurn := "T1",
                handleQ := [(⟨2, "SetMute", "T1"⟩, BlockingPolicy.NON_BLOCKING)],
                blocked := some ⟨1, "Speak", "T1"⟩, trace := [] }
        (Event.report 1 Outcome.failure)
      = pump { registry := [("Speak", 1, BlockingPolicy.BLOCKING),
                            ("SetMute", 1, BlockingPolicy.NON_BLOCKING)],
               currentTurn := "T1", handleQ := [], blocked := none,
               trace := [Action.cancel ⟨2, "SetMute", "T1"⟩] }
    ∧ stepEvent { registry := [("Speak", 1, BlockingPolicy.BLOCKING),
                               ("SetMute", 1, BlockingPolicy.NON_BLOCKING)],
                  currentTurn := "T1",
                  handleQ := [(⟨2, "SetMute", "T1"⟩, BlockingPolicy.NON_BLOCKING)],
                  blocked := some ⟨1, "Speak", "T1"⟩, trace := [] }
        (Event.report 1 Outcome.success)
      = pump { registry := [("Speak", 1, BlockingPolicy.BLOCKING),
                            ("SetMute", 1, BlockingPolicy.NON_BLOCKING)],
               currentTurn := "T1",
               handleQ := [(⟨2, "SetMute", "T1"⟩, BlockingPolicy.NON_BLOCKING)],
               blocked := none, trace := [] } :=
  claim1_failure_drops_group
    { registry := [("Speak", 1, BlockingPolicy.BLOCKING),
                   ("SetMute", 1, BlockingPolicy.NON_BLOCKING)],
      currentTurn := "T1",
      handleQ := [(⟨2, "SetMute", "T1"⟩, BlockingPolicy.NON_BLOCKING)],
      blocked := some ⟨1, "Speak", "T1"⟩, trace := [] }
    ⟨1, "Speak", "T1"⟩ rfl

/-- C2 counterexample: the claim asserts every still-queued directive of
the superseded turn is canceled before any directive of the new turn
executes, universally; but when a directive of the new turn was received
(and queued) before the turn change, the queue drains in arrival order, so
that directive executes before a later-queued old-turn directive is
canceled: in the run below the handle of the T2 SetMute (message id 2)
precedes the cancel of the still-queued T1 SetMute (message id 3). -/
theorem claim2_counterexample :
    (run (initialState [("Speak", 1, BlockingPolicy.BLOCKING),
                        ("SetMute", 1, BlockingPolicy.NON_BLOCKING)])
        [Event.setTurn "T1", Event.receive ⟨1, "Speak", "T1"⟩,
         Event.receive ⟨2, "SetMute", "T2"⟩, Event.receive ⟨3, "SetMute", "T1"⟩,
         Event.setTurn "T2"]).trace
      = [Action.preHandle ⟨1, "Speak", "T1"⟩, Action.handle ⟨1, "Speak", "T1"⟩,
         Action.preHandle ⟨2, "SetMute", "T2"⟩, Action.preHandle ⟨3, "SetMute", "T1"⟩,
         Action.handle ⟨2, "SetMute", "T2"⟩, Action.cancel ⟨3, "SetMute", "T1"⟩]
    ∧ (run (initialState [("Speak", 1, BlockingPolicy.BLOCKING),
                          ("SetMute", 1, BlockingPolicy.NON_BLOCKING)])
        [Event.setTurn "T1", Event.receive ⟨1, "Speak", "T1"⟩,
         Event.receive ⟨2, "SetMute", "T2"⟩, Event.receive ⟨3, "SetMute", "T1"⟩,
         Event.setTurn "T2"]).trace.indexOf (Action.handle ⟨2, "SetMute", "T2"⟩)
      < (run (initialState [("Speak", 1, BlockingPolicy.BLOCKING),
                            ("SetMute", 1, BlockingPolicy.NON_BLOCKING)])
        [Event.setTurn "T1", Event.receive ⟨1, "Speak", "T1"⟩,
         Event.receive ⟨2, "SetMute", "T2"⟩, Event.receive ⟨3, "SetMute", "T1"⟩,
         Event.setTurn "T2"]).trace.indexOf (Action.cancel ⟨3, "SetMute", "T1"⟩) := by
  decide

/-- C2 as amended: when the current turn changes away while the pipeline is
suspended on a BLOCKING directive of the old turn and every still-queued
directive belongs to the old turn (the intended flow, in which a new turn's
directives follow its setCurrentTurn), the turn change unblocks the
pipeline and the resulting state records exactly one cancellation per
queued directive, in queue order, with no execution interleaved: the trace
extension is precisely the cancellation calls and the queue empties, so
every old-turn cancellation precedes anything the new turn executes. -/
theorem claim2_barge_in_cancels_queue (s : SeqState) (d : Directive) (newId : String)
    (hb : s.blocked = some d)
    (hd : d.turnId = s.currentTurn)
    (hcur : s.currentTurn ≠ "")
    (hnew : newId ≠ s.currentTurn)
    (hq : ∀ dp ∈ s.handleQ, dp.1.turnId = s.currentTurn) :
    stepEvent s (Event.setTurn newId)
      = { s with currentTurn := newId, blocked := none, handleQ := [],
                 trace := s.trace ++ s.handleQ.map (fun dp => Action.cancel dp.1) } := by
  have hstale : isCurrentTurn newId d.turnId = false := by
    rw [hd]
    simp [isCurrentTurn, hcur, Ne.symm hnew]
  have hstaleAll : ∀ dp ∈ s.handleQ, isCurrentTurn newId dp.1.turnId = false := by
    intro dp hdp
    rw [hq dp hdp]
    simp [isCurrentTurn, hcur, Ne.symm hnew]
  simp only [stepEvent]
  rw [hb]
  dsimp only
  rw [if_neg (by rw [hstale]; exact Bool.false_ne_true)]
  rw [pump_unblocked rfl]
  dsimp only
  rw [pumpQ_all_stale s.trace hstaleAll]

/-- Witness for C2: a blocked Speak of turn T1 with two queued SetMute
directives of T1; switching to T2 cancels both, in order, and unblocks. -/
theorem claim2_witness :
    stepEvent { registry := [("Speak", 1, BlockingPolicy.BLOCKING),
                             ("SetMute", 1, BlockingPolicy.NON_BLOCKING)],
                currentTurn := "T1",
                handleQ := [(⟨2, "SetMute", "T1"⟩, BlockingPolicy.NON_BLOCKING),
                            (⟨3, "SetMute", "T1"⟩, BlockingPolicy.NON_BLOCKING)],
                blocked := some ⟨1, "Speak", "T1"⟩, trace := [] }
        (Event.setTurn "T2")
      = { registry := [("Speak", 1, BlockingPolicy.BLOCKING),
                       ("SetMute", 1, BlockingPolicy.NON_BLOCKING)],
          currentTurn := "T2", handleQ := [], blocked := none,
          trace := [Action.cancel ⟨2, "SetMute", "T1"⟩,
                    Action.cancel ⟨3, "SetMute", "T1"⟩] } :=
  claim2_barge_in_cancels_queue
    { registry := [("Speak", 1, BlockingPolicy.BLOCKING),
                   ("SetMute", 1, BlockingPolicy.NON_BLOCKING)],
      currentTurn := "T1",
      handleQ := [(⟨2, "SetMute", "T1"⟩, BlockingPolicy.NON_BLOCKING),
                  (⟨3, "SetMute", "T1"⟩, BlockingPolicy.NON_BLOCKING)],
      blocked := some ⟨1, "Speak", "T1"⟩, trace := [] }
    ⟨1, "Speak", "T1"⟩ "T2" rfl rfl (by decide) (by decide) (by decide)

/-- C3 counterexample: the claim asserts the prepared and executed counts
are equal whenever a run quiesces, but a run in which a queued directive is
canceled by a turn change quiesces (empty queue, no suspension) with one
more preparation than execution for the canceled directive's type: the
directive was prepared yet canceled instead of executed. -/
theorem claim3_counterexample :
    (run (initialState [("Speak", 1, BlockingPolicy.BLOCKING),
                        ("SetMute", 1, BlockingPolicy.NON_BLOCKING)])
        [Event.setTurn "T1", Event.receive ⟨1, "Speak", "T1"⟩,
         Event.receive ⟨2, "SetMute", "T1"⟩, Event.setTurn "T2"]).handleQ = []
    ∧ (run (initialState [("Speak", 1, BlockingPolicy.BLOCKING),
                          ("SetMute", 1, BlockingPolicy.NON_BLOCKING)])
        [Event.setTurn "T1", Event.receive ⟨1, "Speak", "T1"⟩,
         Event.receive ⟨2, "SetMute", "T1"⟩, Event.setTurn "T2"]).blocked = none
    ∧ preCount "SetMute"
        (run (initialState [("Speak", 1, BlockingPolicy.BLOCKING),
                            ("SetMute", 1, BlockingPolicy.NON_BLOCKING)])
          [Event.setTurn "T1", Event.receive ⟨1, "Speak", "T1"⟩,
           Event.receive ⟨2, "SetMute", "T1"⟩, Event.setTurn "T2"]).trace
      ≠ handleCount "SetMute"
        (run (initialState [("Speak", 1, BlockingPolicy.BLOCKING),
                            ("SetMute", 1, BlockingPolicy.NON_BLOCKING)])
          [Event.setTurn "T1", Event.receive ⟨1, "Speak", "T1"⟩,
           Event.receive ⟨2, "SetMute", "T1"⟩, Event.setTurn "T2"]).trace := by
  decide

/-- C3 as amended: at every reachable state of any run, for every directive
type, the number of directives that have completed preparation is at least
the number that have begun execution (no directive executes before it is
prepared); and when the run quiesces (the handle queue is empty) the
prepared count equals the executed count plus the canceled count, so the
two are equal exactly when nothing was canceled. -/
theorem claim3_prepared_vs_executed (reg : List Registration) (es : List Event) :
    (∀ t, handleCount t (run (initialState reg) es).trace
        ≤ preCount t (run (initialState reg) es).trace)
    ∧ ((run (initialState reg) es).handleQ = [] →
        ∀ t, preCount t (run (initialState reg) es).trace
          = handleCount t (run (initialState reg) es).trace
            + cancelCount t (run (initialState reg) es).trace) := by
  have hinv := CountInv_run (initialState reg) es (CountInv_initial reg)
  constructor
  · intro t
    have := hinv t
    omega
  · intro hq t
    have := hinv t
    rw [hq, queueCount_nil] at this
    omega

/-- Witness for C3: on the quiescent run of the counterexample, prepared
equals executed plus canceled for the SetMute type. -/
theorem claim3_witness :
    preCount "SetMute"
        (run (initialState [("Speak", 1, BlockingPolicy.BLOCKING),
                            ("SetMute", 1, BlockingPolicy.NON_BLOCKING)])
          [Event.setTurn "T1", Event.receive ⟨1, "Speak", "T1"⟩,
           Event.receive ⟨2, "SetMute", "T1"⟩, Event.setTurn "T2"]).trace
      = handleCount "SetMute"
          (run (initialState [("Speak", 1, BlockingPolicy.BLOCKING),
                              ("SetMute", 1, BlockingPolicy.NON_BLOCKING)])
            [Event.setTurn "T1", Event.receive ⟨1, "Speak", "T1"⟩,
             Event.receive ⟨2, "SetMute", "T1"⟩, Event.setTurn "T2"]).trace
        + cancelCount "SetMute"
          (run (initialState [("Speak", 1, BlockingPolicy.BLOCKING),
                              ("SetMute", 1, BlockingPolicy.NON_BLOCKING)])
            [Event.setTurn "T1", Event.receive ⟨1, "Speak", "T1"⟩,
             Event.receive ⟨2, "SetMute", "T1"⟩, Event.setTurn "T2"]).trace :=
  (claim3_prepared_vs_executed
    [("Speak", 1, BlockingPolicy.BLOCKING), ("SetMute", 1, BlockingPolicy.NON_BLOCKING)]
    [Event.setTurn "T1", Event.receive ⟨1, "Speak", "T1"⟩,
     Event.receive ⟨2, "SetMute", "T1"⟩, Event.setTurn "T2"]).2 (by decide) "SetMute"

/-- C4: a registration request fails with no side effect exactly when the
handler reference is null or some requested type is already owned by a
different handler (the registry is returned unchanged, so the first
registrant remains sole owner of every conflicted type); otherwise it
succeeds and installs every requested (type, policy) pair, leaving every
type outside the request untouched. -/
theorem claim4_registration (reg : List Registration) (handler : Option Nat)
    (decls : List (String × BlockingPolicy))
    (hnd : (decls.map Prod.fst).Nodup) :
    ((addDirectiveHandler reg handler decls).1 = false ↔
        handler = none ∨ ∃ h, handler = some h ∧ hasConflict reg h decls = true)
    ∧ ((addDirectiveHandler reg handler decls).1 = false →
        (addDirectiveHandler reg handler decls).2 = reg)
    ∧ (∀ h, handler = some h → hasConflict reg h decls = false →
        (addDirectiveHandler reg handler decls).1 = true
        ∧ ∀ tp ∈ decls,
            lookupHandler (addDirectiveHandler reg handler decls).2 tp.1 = some (h, tp.2))
    ∧ (∀ t, t ∉ decls.map Prod.fst →
        lookupHandler (addDirectiveHandler reg handler decls).2 t = lookupHandler reg t) := by
  cases handler with
  | none =>
    refine ⟨by simp [addDirectiveHandler], fun _ => rfl, ?_, fun t ht => rfl⟩
    intro h hh
    exact absurd hh (by simp)
  | some h =>
    by_cases hc : hasConflict reg h decls = true
    · refine ⟨by simp [addDirectiveHandler, hc], ?_, ?_, ?_⟩
      · intro _
        simp [addDirectiveHandler, hc]
      · intro h2 hh2 hcf
        injection hh2 with he
        subst he
        rw [hc] at hcf
        exact absurd hcf (by simp)
      · intro t ht
        simp [addDirectiveHandler, hc]
    · have hcf : hasConflict reg h decls = false := by simpa using hc
      have hres : addDirectiveHandler reg (some h) decls
          = (true, decls.foldl (fun acc tp => insertPair tp.1 h tp.2 acc) reg) := by
        simp [addDirectiveHandler, hcf]
      refine ⟨?_, ?_, ?_, ?_⟩
      · rw [hres]
        simp [hcf]
      · intro hfalse
        rw [hres] at hfalse
        exact absurd hfalse (by simp)
      · intro h2 hh2 _
        injection hh2 with he
        subst he
        rw [hres]
        exact ⟨rfl, fun tp hmem => lookupHandler_foldl_mem reg hnd hmem⟩
      · intro t ht
        rw [hres]
        exact lookupHandler_foldl_notmem reg ht

/-- Witness for C4: a second handler requesting SetMute, already owned by
handler 1, is rejected and the registry is unchanged. -/
theorem claim4_witness :
    (addDirectiveHandler [("SetMute", 1, BlockingPolicy.BLOCKING)] (some 2)
        [("SetMute", BlockingPolicy.BLOCKING)]).1 = false
    ∧ (addDirectiveHandler [("SetMute", 1, BlockingPolicy.BLOCKING)] (some 2)
        [("SetMute", BlockingPolicy.BLOCKING)]).2
      = [("SetMute", 1, BlockingPolicy.BLOCKING)] := by
  have h := claim4_registration [("SetMute", 1, BlockingPolicy.BLOCKING)] (some 2)
      [("SetMute", BlockingPolicy.BLOCKING)] (by decide)
  exact ⟨h.1.mpr (Or.inr ⟨2, rfl, by decide⟩),
         h.2.1 (h.1.mpr (Or.inr ⟨2, rfl, by decide⟩))⟩

/-- C5: while the pipeline is suspended on a BLOCKING directive, no later
directive executes: ingestion only prepares and enqueues (the executed
actions of the trace are unchanged and the suspension persists), a report
for a different message id is a no-op, and a turn change that does not move
away from the suspended directive's turn keeps the suspension; the
suspension ends precisely on a report naming the suspended directive —
directly resuming the pipeline on success, and resuming it after canceling
and removing the group's queued directives on failure; and a NON_BLOCKING
directive's execution proceeds immediately to the next queued directive
without waiting for an outcome. -/
theorem claim5_blocking_semantics :
    (∀ (s : SeqState) (d d2 : Directive), s.blocked = some d →
      (stepEvent s (Event.receive d2)).blocked = some d
      ∧ handleActions (stepEvent s (Event.receive d2)).trace = handleActions s.trace)
    ∧ (∀ (s : SeqState) (d : Directive) (mid : Nat) (o : Outcome), s.blocked = some d →
        d.messageId ≠ mid → stepEvent s (Event.report mid o) = s)
    ∧ (∀ (s : SeqState) (d : Directive) (newId : String), s.blocked = some d →
        isCurrentTurn newId d.turnId = true →
        stepEvent s (Event.setTurn newId) = { s with currentTurn := newId })
    ∧ (∀ (s : SeqState) (d : Directive), s.blocked = some d →
        stepEvent s (Event.report d.messageId Outcome.success)
          = pump { s with blocked := none }
        ∧ stepEvent s (Event.report d.messageId Outcome.failure)
          = pump { s with
                    blocked := none,
                    handleQ := dropGroup d.turnId s.handleQ,
                    trace := s.trace ++ cancelGroup d.turnId s.handleQ })
    ∧ (∀ (turn : String) (d : Directive) (rest : List (Directive × BlockingPolicy))
        (tr : List Action), isCurrentTurn turn d.turnId = true →
        pumpQ turn ((d, BlockingPolicy.NON_BLOCKING) :: rest) tr
          = pumpQ turn rest (tr ++ [Action.handle d])) := by
  refine ⟨?_, ?_, ?_, ?_, ?_⟩
  · intro s d d2 hb
    simp only [stepEvent]
    cases hl : lookupHandler s.registry d2.dirType with
    | none =>
      refine ⟨hb, ?_⟩
      simp [handleActions, List.filter_append]
    | some hp =>
      dsimp only
      have hb2 : ({ s with
          handleQ := s.handleQ ++ [(d2, hp.2)],
          trace := s.trace ++ [Action.preHandle d2] } : SeqState).blocked = some d := hb
      rw [pump_blocked hb2]
      refine ⟨hb, ?_⟩
      simp [handleActions, List.filter_append]
  · intro s d mid o hb hmid
    simp only [stepEvent]
    rw [hb]
    dsimp only
    rw [if_neg hmid]
  · intro s d newId hb hcur
    simp only [stepEvent]
    rw [hb]
    dsimp only
    rw [if_pos hcur]
  · intro s d hb
    constructor
    · simp only [stepEvent]
      rw [hb]
      dsimp only
      rw [if_pos rfl]
    · simp only [stepEvent]
      rw [hb]
      dsimp only
      rw [if_pos rfl]
  · intro turn d rest tr h
    exact pumpQ_cons_nonblocking rest tr h

/-- Witness for C5: at a state suspended on Speak (message id 1), receiving
a SetMute keeps the suspension, a report for id 9 is a no-op, a turn change
to the same turn keeps the suspension, and the report for id 1 resumes. -/
theorem claim5_witness :
    (stepEvent { registry := [("Speak", 1, BlockingPolicy.BLOCKING),
                              ("SetMute", 1, BlockingPolicy.NON_BLOCKING)],
                 currentTurn := "T1", handleQ := [],
                 blocked := some ⟨1, "Speak", "T1"⟩, trace := [] }
        (Event.receive ⟨3, "SetMute", "T1"⟩)).blocked = some ⟨1, "Speak", "T1"⟩
    ∧ stepEvent { registry := [("Speak", 1, BlockingPolicy.BLOCKING),
                               ("SetMute", 1, BlockingPolicy.NON_BLOCKING)],
                  currentTurn := "T1", handleQ := [],
                  blocked := some ⟨1, "Speak", "T1"⟩, trace := [] }
        (Event.report 9 Outcome.success)
      = { registry := [("Speak", 1, BlockingPolicy.BLOCKING),
                       ("SetMute", 1, BlockingPolicy.NON_BLOCKING)],
          currentTurn := "T1", handleQ := [],
          blocked := some ⟨1, "Speak", "T1"⟩, trace := [] }
    ∧ stepEvent { registry := [("Speak", 1, BlockingPolicy.BLOCKING),
                               ("SetMute", 1, BlockingPolicy.NON_BLOCKING)],
                  currentTurn := "T1", handleQ := [],
                  blocked := some ⟨1, "Speak", "T1"⟩, trace := [] }
        (Event.report 1 Outcome.success)
      = pump { registry := [("Speak", 1, BlockingPolicy.BLOCKING),
                            ("SetMute", 1, BlockingPolicy.NON_BLOCKING)],
               currentTurn := "T1", handleQ := [],
               blocked := none, trace := [] } :=
  ⟨(claim5_blocking_semantics.1
      { registry := [("Speak", 1, BlockingPolicy.BLOCKING),
                     ("SetMute", 1, BlockingPolicy.NON_BLOCKING)],
        currentTurn := "T1", handleQ := [],
        blocked := some ⟨1, "Speak", "T1"⟩, trace := [] }
      ⟨1, "Speak", "T1"⟩ ⟨3, "SetMute", "T1"⟩ rfl).1,
   claim5_blocking_semantics.2.1
      { registry := [("Speak", 1, BlockingPolicy.BLOCKING),
                     ("SetMute", 1, BlockingPolicy.NON_BLOCKING)],
        currentTurn := "T1", handleQ := [],
        blocked := some ⟨1, "Speak", "T1"⟩, trace := [] }
      ⟨1, "Speak", "T1"⟩ 9 Outcome.success rfl (by decide),
   (claim5_blocking_semantics.2.2.2.1
      { registry := [("Speak", 1, BlockingPolicy.BLOCKING),
                     ("SetMute", 1, BlockingPolicy.NON_BLOCKING)],
        currentTurn := "T1", handleQ := [],
        blocked := some ⟨1, "Speak", "T1"⟩, trace := [] }
      ⟨1, "Speak", "T1"⟩ rfl).1⟩

/-- C6: a directive with an empty turn identifier belongs to no turn: the
current-turn test always accepts it, no run ever records a cancellation for
it, and when received with a handler registered and the pipeline idle it is
prepared and then executed. -/
theorem claim6_empty_turn :
    (∀ cur : String, isCurrentTurn cur "" = true)
    ∧ (∀ (reg : List Registration) (es : List Event) (d : Directive),
        d.turnId = "" → Action.cancel d ∉ (run (initialState reg) es).trace)
    ∧ (∀ (s : SeqState) (d : Directive) (hp : Nat × BlockingPolicy),
        d.turnId = "" → lookupHandler s.registry d.dirType = some hp →
        s.blocked = none → s.handleQ = [] →
        (stepEvent s (Event.receive d)).trace
          = s.trace ++ [Action.preHandle d, Action.handle d]) := by
  refine ⟨fun cur => rfl, ?_, ?_⟩
  · intro reg es d hd hmem
    rcases run_cancel_mem hmem with hm | hne
    · simp [initialState, run] at hm
    · exact hne hd
  · intro s d hp hd hl hb hq
    simp only [stepEvent]
    rw [hl]
    dsimp only
    have hb2 : ({ s with
        handleQ := s.handleQ ++ [(d, hp.2)],
        trace := s.trace ++ [Action.preHandle d] } : SeqState).blocked = none := hb
    rw [pump_unblocked hb2]
    dsimp only
    rw [hq]
    have hcur : isCurrentTurn s.currentTurn d.turnId = true := by
      rw [hd]
      rfl
    obtain ⟨hid, pol⟩ := hp
    cases pol with
    | NON_BLOCKING =>
      rw [List.nil_append, pumpQ_cons_nonblocking [] _ hcur, pumpQ_nil]
      dsimp only
      rw [List.append_assoc]
      rfl
    | BLOCKING =>
      rw [List.nil_append, pumpQ_cons_blocking [] _ hcur]
      dsimp only
      rw [List.append_assoc]
      rfl

/-- Witness for C6: a StopCapture directive with empty turn id is never
canceled across a turn change and, received while idle, is prepared then
executed. -/
theorem claim6_witness :
    Action.cancel ⟨5, "StopCapture", ""⟩
      ∉ (run (initialState [("StopCapture", 1, BlockingPolicy.NON_BLOCKING)])
          [Event.setTurn "T1", Event.receive ⟨5, "StopCapture", ""⟩,
           Event.setTurn "T2"]).trace
    ∧ (stepEvent { registry := [("StopCapture", 1, BlockingPolicy.NON_BLOCKING)],
                   currentTurn := "T1", handleQ := [], blocked := none, trace := [] }
        (Event.receive ⟨5, "StopCapture", ""⟩)).trace
      = [Action.preHandle ⟨5, "StopCapture", ""⟩, Action.handle ⟨5, "StopCapture", ""⟩] :=
  ⟨claim6_empty_turn.2.1 [("StopCapture", 1, BlockingPolicy.NON_BLOCKING)]
      [Event.setTurn "T1", Event.receive ⟨5, "StopCapture", ""⟩, Event.setTurn "T2"]
      ⟨5, "StopCapture", ""⟩ rfl,
   claim6_empty_turn.2.2
      { registry := [("StopCapture", 1, BlockingPolicy.NON_BLOCKING)],
        currentTurn := "T1", handleQ := [], blocked := none, trace := [] }
      ⟨5, "StopCapture", ""⟩ (1, BlockingPolicy.NON_BLOCKING) rfl (by decide) rfl rfl⟩

/-- C7: for every ingested directive whose type has no registered handler,
the successor state is the same state with exactly one exception report
(type, messageId) appended to the trace: the directive is dropped without
any preparation, execution or cancellation call, and the queue, suspension
and turn are untouched, so every other directive's processing is
unaffected. -/
theorem claim7_unhandled_directive (s : SeqState) (d : Directive)
    (h : lookupHandler s.registry d.dirType = none) :
    stepEvent s (Event.receive d)
      = { s with trace := s.trace ++ [Action.exceptionReport d.dirType d.messageId] } := by
  simp only [stepEvent]
  rw [h]

/-- Witness for C7: a Speak directive arriving with only SetMute registered
produces exactly the exception report. -/
theorem claim7_witness :
    stepEvent { registry := [("SetMute", 1, BlockingPolicy.NON_BLOCKING)],
                currentTurn := "T1", handleQ := [], blocked := none, trace := [] }
        (Event.receive ⟨9, "Speak", "T1"⟩)
      = { registry := [("SetMute", 1, BlockingPolicy.NON_BLOCKING)],
          currentTurn := "T1", handleQ := [], blocked := none,
          trace := [Action.exceptionReport "Speak" 9] } :=
  claim7_unhandled_directive
    { registry := [("SetMute", 1, BlockingPolicy.NON_BLOCKING)],
      currentTurn := "T1", handleQ := [], blocked := none, trace := [] }
    ⟨9, "Speak", "T1"⟩ (by decide)

end DirectiveSequencer

namespace StateSync

theorem lockAuditGo_callbacks_rel (l : List Nat) :
    lockAuditGo { stateDepth := 1, observerDepth := 0, observerFreeAtCallbacks := true,
                  stateHeldAtCallbacks := true, copiesUnderObserverMutex := true,
                  noSameThreadReacquire := true }
        (l.map NotifyStep.invokeCallback ++ [NotifyStep.releaseStateMutex])
      = { stateDepth := 0, observerDepth := 0, observerFreeAtCallbacks := true,
          stateHeldAtCallbacks := true, copiesUnderObserverMutex := true,
          noSameThreadReacquire := true } := by
  induction l with
  | nil => decide
  | cons a rest ih => exact ih

theorem lockAudit_round (obs : List Nat) :
    lockAudit (notificationRoundSteps obs)
      = { stateDepth := 0, observerDepth := 0, observerFreeAtCallbacks := true,
          stateHeldAtCallbacks := true, copiesUnderObserverMutex := true,
          noSameThreadReacquire := true } := by
  show lockAuditGo
      { stateDepth := 1,
        observerDepth := 0,
        observerFreeAtCallbacks := true,
        stateHeldAtCallbacks := true,
        copiesUnderObserverMutex := true,
        noSameThreadReacquire := true }
      (obs.map NotifyStep.invokeCallback ++ [NotifyStep.releaseStateMutex])
      = { stateDepth := 0,
          observerDepth := 0,
          observerFreeAtCallbacks := true,
          stateHeldAtCallbacks := true,
          copiesUnderObserverMutex := true,
          noSameThreadReacquire := true }
  exact lockAuditGo_callbacks_rel obs

/-- C8 counterexample: the claim asserts no lock is held during any
observer callback and that a callback re-entering the component cannot
deadlock; but both callers of notifyObserversLocked hold m_stateMutex
across the callbacks — in a round over the observer set [1] the state
mutex is held at the callback — and a callback re-entering through
addObserver re-acquires the already-held m_stateMutex (line 68), a
same-thread re-acquire of a non-recursive std::mutex, which deadlocks. -/
theorem claim8_counterexample :
    (lockAudit (notificationRoundSteps [1])).stateHeldAtCallbacks = true
    ∧ (lockAudit roundWhereCallbackAddsObserver).noSameThreadReacquire = false := by
  decide

/-- C8 as amended: notifyObserversLocked itself is snapshot-then-notify
with respect to the observer mutex — the round's step sequence acquires the
state mutex, acquires the observer mutex, copies the observer set, releases
the observer mutex, invokes the callbacks and only then releases the state
mutex; every copy runs under the observer mutex, every callback runs with
the observer mutex free, the round itself never re-acquires a held mutex,
and the observers invoked are exactly the entry snapshot regardless of
re-entrant mutation of the live set; however the state mutex, held by both
callers, remains held during every callback, so re-entering the component
through a path that takes the state mutex deadlocks. -/
theorem claim8_snapshot_but_state_held :
    (∀ obs : List Nat,
      notificationRoundSteps obs
        = [NotifyStep.acquireStateMutex, NotifyStep.acquireObserverMutex,
           NotifyStep.copyObservers obs, NotifyStep.releaseObserverMutex]
          ++ obs.map NotifyStep.invokeCallback ++ [NotifyStep.releaseStateMutex])
    ∧ (∀ obs : List Nat,
        (lockAudit (notificationRoundSteps obs)).observerFreeAtCallbacks = true
        ∧ (lockAudit (notificationRoundSteps obs)).copiesUnderObserverMutex = true
        ∧ (lockAudit (notificationRoundSteps obs)).stateHeldAtCallbacks = true
        ∧ (lockAudit (notificationRoundSteps obs)).noSameThreadReacquire = true)
    ∧ (∀ (obs : List Nat) (reenter : Nat → List Nat → List Nat),
        (notifyRun obs reenter).2 = obs) := by
  refine ⟨fun obs => rfl, ?_, fun obs reenter => rfl⟩
  intro obs
  rw [lockAudit_round obs]
  exact ⟨rfl, rfl, rfl, rfl⟩

/-- C9: StateSynchronizer::create returns null exactly when the context
manager or the message sender argument is null; otherwise the returned
instance starts in the NOT_SYNCHRONIZED state. -/
theorem claim9_create (cm ms : Option Nat) :
    (create cm ms = none ↔ cm = none ∨ ms = none)
    ∧ (∀ s, create cm ms = some s → s.m_state = State.NOT_SYNCHRONIZED) := by
  cases cm with
  | none =>
    refine ⟨by simp [create], ?_⟩
    intro s h
    simp [create] at h
  | some c =>
    cases ms with
    | none =>
      refine ⟨by simp [create], ?_⟩
      intro s h
      simp [create] at h
    | some m =>
      refine ⟨by simp [create], ?_⟩
      intro s h
      injection h with h2
      rw [← h2]

/-- Witness for C9: create with a null context manager returns null, and
create with both collaborators present yields an instance whose state is
NOT_SYNCHRONIZED. -/
theorem claim9_witness :
    create none (some 2) = none
    ∧ ({ m_contextManager := 1, m_messageSender := 2,
         m_state := State.NOT_SYNCHRONIZED, m_observers := [] }
          : StateSynchronizer).m_state = State.NOT_SYNCHRONIZED :=
  ⟨(claim9_create none (some 2)).1.mpr (Or.inl rfl),
   (claim9_create (some 1) (some 2)).2
     { m_contextManager := 1, m_messageSender := 2,
       m_state := State.NOT_SYNCHRONIZED, m_observers := [] } rfl⟩

end StateSync

namespace AdapterUtils

/-- C10: the session retry back-off table holds exactly the six values
60000, 300000, 900000, 1200000, 1800000 and 3600000 milliseconds, is
strictly increasing from entry to entry, and every entry is at least the
800 millisecond minimum retry interval stated in the source comment. -/
theorem claim10_session_retry_table :
    SESSION_RETRY_TABLE = [60000, 300000, 900000, 1200000, 1800000, 3600000]
    ∧ SESSION_RETRY_TABLE.Chain' (· < ·)
    ∧ (∀ x ∈ SESSION_RETRY_TABLE, 800 ≤ x)
    ∧ SESSION_RETRY_TABLE.length = 6 := by
  refine ⟨by decide, by norm_num [SESSION_RETRY_TABLE, List.chain'_cons], by decide, by decide⟩

end AdapterUtils
